import Mathlib

/-!
Shallow embedding of the fundis trading-execution engine core.

The Python modules `fundis/hyperliquid.py`, `fundis/aerodrome.py`,
`fundis/memory.py`, `fundis/agents/sentichain_common.py` and
`fundis/agents/sentichain_btc_hyperliquid.py` are translated here as pure
Lean functions.  External effects (venue queries, RPC reads, order
submission) are passed in as explicit `Except`-valued arguments: `.error`
models a raised Python exception, `.ok` a normal return.  Python floats and
decimals are modelled as `Rat`; Python `int` as `Int`; loosely-typed JSON
dicts are modelled as structures whose optional keys are `Option` fields
(`x.getD d` renders Python's `dict.get(key, d)`).
-/

namespace Fundis

/-- Venue fill details carried by an order status item.  In the raw JSON,
`totalSz` and `avgPx` are decimal strings fed to Python `float(...)`; they
are modelled as already-parsed rationals, `none` when the key is missing
(Python then defaults to `0`). -/
structure FilledField where
  totalSz : Option Rat
  avgPx : Option Rat
  deriving Repr, DecidableEq

/-- One entry of the `statuses` list of a raw Hyperliquid order response.
Each optional key of the dict becomes an `Option` field; `resting` carries
no data used by the code, so only its presence is modelled. -/
structure StatusItem where
  error : Option String
  filled : Option FilledField
  resting : Bool
  deriving Repr, DecidableEq

/-- The `data` object of a raw order response (`data.get("statuses", [])`). -/
structure OrderData where
  statuses : Option (List StatusItem)
  deriving Repr, DecidableEq

/-- The `response` object of a raw order response (`response.get("data", {})`). -/
structure OrderResponse where
  data : Option OrderData
  deriving Repr, DecidableEq

/-- A raw order response dict as returned by the Hyperliquid SDK:
`{"status": ..., "response": {"data": {"statuses": [...]}}}`. -/
structure RawResult where
  status : Option String
  response : Option OrderResponse
  deriving Repr, DecidableEq

/-- Structured result of order execution, mirroring the `OrderResult`
dataclass of `fundis/hyperliquid.py` (the `raw_response` echo field, which
merely repeats the input, is not modelled). -/
structure OrderResult where
  success : Bool
  filled_size : Rat
  avg_price : Rat
  status : String
  error : Option String
  deriving Repr, DecidableEq

/-- The `statuses` list extracted from a raw result through the chain
`result.get("response", {}).get("data", {}).get("statuses", [])`. -/
def RawResult.statusList (r : RawResult) : List StatusItem :=
  ((r.response.bind OrderResponse.data).bind OrderData.statuses).getD []

/-- Embedding of `parse_order_result` (fundis/hyperliquid.py):
classify a raw venue response into a structured `OrderResult`. -/
def parseOrderResult (r : RawResult) : OrderResult :=
  let status := r.status.getD ""
  if status ≠ "ok" then
    { success := false, filled_size := 0, avg_price := 0, status := status,
      error := some (reprStr r.response) }
  else
    match r.statusList with
    | [] =>
      { success := false, filled_size := 0, avg_price := 0,
        status := "no_statuses", error := some "No order statuses returned" }
    | first :: _ =>
      match first.error with
      | some msg =>
        { success := false, filled_size := 0, avg_price := 0,
          status := "error", error := some msg }
      | none =>
        match first.filled with
        | some f =>
          { success := true, filled_size := f.totalSz.getD 0,
            avg_price := f.avgPx.getD 0, status := "filled", error := none }
        | none =>
          if first.resting then
            { success := true, filled_size := 0, avg_price := 0,
              status := "resting",
              error := some "Order resting in book (not immediately filled)" }
          else
            { success := false, filled_size := 0, avg_price := 0,
              status := "unknown",
              error := some ("Unknown status format: " ++ reprStr first) }

/-! Position store (fundis/memory.py).  The `positions` table is a list of
rows; SQLite `SELECT ... fetchone` is the first match, `UPDATE` rewrites
every matching row (the UNIQUE key makes at most one match in practice but
is not re-imposed here), and `INSERT ... ON CONFLICT DO UPDATE` replaces
the matching row or appends. -/

/-- A row of the `positions` table (the `Position` dataclass of
fundis/memory.py; the surrogate `id` column is not modelled). -/
structure PositionRow where
  wallet_address : String
  agent_name : String
  ticker : String
  base_token : String
  quote_token : String
  allocated_amount : Rat
  allocated_amount_raw : Int
  current_position : String
  last_updated_at : String
  deriving Repr, DecidableEq

/-- The positions table, in insertion order. -/
abbrev PositionStore := List PositionRow

/-- Key match for the (wallet_address, agent_name) unique key. -/
def rowKeyIs (r : PositionRow) (w a : String) : Bool :=
  r.wallet_address == w && r.agent_name == a

/-- Embedding of `MemoryService.get_position`: first row matching the key,
`none` when absent (absence is not an error). -/
def getPosition (db : PositionStore) (w a : String) : Option PositionRow :=
  db.find? (fun r => rowKeyIs r w a)

/-- Embedding of `MemoryService.update_position_side`: SQL `UPDATE positions
SET current_position, last_updated_at WHERE wallet_address AND agent_name`.
A key with no row updates nothing and raises nothing. -/
def updatePositionSide (db : PositionStore) (w a newSide now : String) :
    PositionStore :=
  db.map (fun r =>
    if rowKeyIs r w a then
      { r with current_position := newSide, last_updated_at := now }
    else r)

/-- Embedding of `MemoryService.upsert_position`: insert-or-replace keyed by
(wallet_address, agent_name), all non-key fields overwritten on conflict. -/
def upsertPosition (db : PositionStore) (p : PositionRow) : PositionStore :=
  if (getPosition db p.wallet_address p.agent_name).isSome then
    db.map (fun r => if rowKeyIs r p.wallet_address p.agent_name then p else r)
  else db ++ [p]

/-! Reconciliation for the Hyperliquid BTC agent
(fundis/agents/sentichain_btc_hyperliquid.py). -/

/-- The `AGENT_NAME` constant of fundis/agents/sentichain_btc_hyperliquid.py. -/
def HL_AGENT_NAME : String := "SentiChain BTC Agent on Hyperliquid"

/-- A venue position dict as returned by `get_position_for_coin`: only the
`szi` key (signed size, a decimal string fed to `float`) is consumed by the
functions modelled here; a missing key defaults to `0`. -/
structure VenuePosition where
  szi : Option Rat
  deriving Repr, DecidableEq

/-- Embedding of `_get_stored_position`: the stored side, defaulting to
"FLAT" when no row exists. -/
def getStoredPosition (db : PositionStore) (w : String) : String :=
  match getPosition db w HL_AGENT_NAME with
  | some p => p.current_position
  | none => "FLAT"

/-- The true side computed inside `_reconcile_position_state`: "LONG" when
the venue reports a position with signed size > 0, "FLAT" otherwise
(including when no position exists). -/
def perpTrueSide (posQ : Option VenuePosition) : String :=
  match posQ with
  | some p => if 0 < p.szi.getD 0 then "LONG" else "FLAT"
  | none => "FLAT"

/-- Embedding of `_reconcile_position_state`.  `venueQ` is the outcome of
`get_position_for_coin` (`.error` models a raised exception anywhere in the
venue query).  Returns the reconciled side, the resulting store, and whether
the update branch executed (a store write was issued). -/
def reconcilePositionState (db : PositionStore) (w : String)
    (venueQ : Except Unit (Option VenuePosition)) (now : String) :
    String × PositionStore × Bool :=
  let stored := getStoredPosition db w
  match venueQ with
  | .error _ => (stored, db, false)
  | .ok posQ =>
    let actual := perpTrueSide posQ
    if stored ≠ actual then
      (actual, updatePositionSide db w HL_AGENT_NAME actual now, true)
    else (stored, db, false)

/-! Spot route resolver (fundis/aerodrome.py). -/

/-- A formatted Aerodrome route dict `{from, to, stable, factory}` (`from`
and `to` are renamed: both are Lean keywords). -/
structure Route where
  frm : String
  toAddr : String
  stable : Bool
  factory : String
  deriving Repr, DecidableEq

/-- The `AERODROME_FACTORY_V2` constant (volatile and stable pools). -/
def AERODROME_FACTORY_V2 : String := "0x420DD381b31aEf6683db6B902084cB0FFECe40Da"

/-- The `AERODROME_FACTORY_CL` constant (concentrated-liquidity pools). -/
def AERODROME_FACTORY_CL : String := "0x5e7BB104d84c7CB9B682AaC2F3d509f5F406809A"

/-- The fixed, ordered `route_configs` list of
`try_aerodrome_swap_simulation`: volatile direct, stable direct,
concentrated-liquidity direct (the unused description strings are dropped). -/
def routeCandidates (tokenIn tokenOut : String) : List (List Route) :=
  [ [⟨tokenIn, tokenOut, false, AERODROME_FACTORY_V2⟩],
    [⟨tokenIn, tokenOut, true, AERODROME_FACTORY_V2⟩],
    [⟨tokenIn, tokenOut, false, AERODROME_FACTORY_CL⟩] ]

/-- The candidate loop of `try_aerodrome_swap_simulation`.  `quoteFn` is the
router's `getAmountsOut` call: `.error` models any raised exception
(`ContractLogicError` or otherwise), `.ok` the returned amounts list.  A
nonempty amounts list with positive last element is accepted; everything
else falls through to the next candidate. -/
def tryAeroLoop (quoteFn : List Route → Except Unit (List Int)) :
    List (List Route) → Option (Int × List Route)
  | [] => none
  | routes :: rest =>
    match quoteFn routes with
    | .error _ => tryAeroLoop quoteFn rest
    | .ok amounts =>
      match amounts.getLast? with
      | none => tryAeroLoop quoteFn rest
      | some out => if 0 < out then some (out, routes) else tryAeroLoop quoteFn rest

/-- Embedding of `try_aerodrome_swap_simulation`: try the fixed candidate
list in order against the quoting function and return the first accepted
candidate with its output amount. -/
def tryAerodromeSwapSimulation (tokenIn tokenOut : String) (amountIn : Int)
    (quoteFn : Int → List Route → Except Unit (List Int)) :
    Option (Int × List Route) :=
  tryAeroLoop (quoteFn amountIn) (routeCandidates tokenIn tokenOut)

/-- Written from the spec's words, for comparison with the source loop: the
output of one candidate counts only when the quote succeeds and its last
amount is positive. -/
def positiveQuoteSpec (quoteFn : List Route → Except Unit (List Int))
    (routes : List Route) : Option Int :=
  match quoteFn routes with
  | .error _ => none
  | .ok amounts => amounts.getLast?.bind (fun out => if 0 < out then some out else none)

/-! Allocation managers (fundis/agents/sentichain_common.py `_ensure_allocation`
for the spot agents, fundis/agents/sentichain_btc_hyperliquid.py
`_ensure_allocation` for the Hyperliquid agent). -/

/-- The `USDC_ADDRESS` constant of fundis/config.py (native USDC on Base). -/
def USDC_ADDRESS : String := "0x833589fcd6edb6e08f4c7c32d4f71b54bda02913"

/-- The `WBTC_ADDRESS` constant of fundis/config.py. -/
def WBTC_ADDRESS : String := "0x0555E30da8f98308EdB960aa94C0Db47230d2B9c"

/-- Python `int(...)` applied to a number: truncation toward zero. -/
def pyTrunc (q : Rat) : Int :=
  if 0 ≤ q then q.floor else q.ceil

/-- The fixed `needed = Decimal("10")` minimum/allocation of the spot
`_ensure_allocation`. -/
def spotAllocationNeeded : Rat := 10

/-- Embedding of the spot `_ensure_allocation`
(fundis/agents/sentichain_common.py).  `balanceQ` is the guarded USDC
balance read: `.error` models a raised exception (both the `HTTPError` and
the catch-all handler return `None`), `.ok (human, decimals)` a successful
read.  Returns the position to use (existing or created, `none` on
failure) and the resulting store. -/
def spotEnsureAllocation (db : PositionStore) (w agentName ticker quoteToken : String)
    (balanceQ : Except Unit (Rat × Nat)) (now : String) :
    Option PositionRow × PositionStore :=
  match getPosition db w agentName with
  | some p => (some p, db)
  | none =>
    match balanceQ with
    | .error _ => (none, db)
    | .ok (human, decimals) =>
      if human < spotAllocationNeeded then (none, db)
      else
        let p : PositionRow :=
          { wallet_address := w, agent_name := agentName, ticker := ticker,
            base_token := USDC_ADDRESS, quote_token := quoteToken,
            allocated_amount := spotAllocationNeeded,
            allocated_amount_raw := pyTrunc (spotAllocationNeeded * 10 ^ decimals),
            current_position := "USDC", last_updated_at := now }
        (some p, upsertPosition db p)

/-- The position row created by the Hyperliquid `_ensure_allocation`
(`current_position := "FLAT"`; USDC has 6 decimals on Hyperliquid so
`allocated_amount_raw = int(allocation * 1_000_000)`). -/
def hlNewPosition (w : String) (allocationUsdc : Rat) (now : String) : PositionRow :=
  { wallet_address := w, agent_name := HL_AGENT_NAME, ticker := "BTC",
    base_token := "USDC", quote_token := "BTC",
    allocated_amount := allocationUsdc,
    allocated_amount_raw := pyTrunc (allocationUsdc * 1000000),
    current_position := "FLAT", last_updated_at := now }

/-- Embedding of the Hyperliquid `_ensure_allocation`
(fundis/agents/sentichain_btc_hyperliquid.py).  `allocationUsdc` is
`ctx.allocation_usdc` (the user-configured cap); `balanceQ` the guarded
`get_usdc_balance` read.  Returns (ok, resulting store, below-cap warning
emitted). -/
def hlEnsureAllocation (db : PositionStore) (w : String) (allocationUsdc : Rat)
    (balanceQ : Except Unit Rat) (now : String) :
    Bool × PositionStore × Bool :=
  match getPosition db w HL_AGENT_NAME with
  | some _ => (true, db, false)
  | none =>
    match balanceQ with
    | .error _ => (false, db, false)
    | .ok bal =>
      if bal ≤ 0 then (false, db, false)
      else
        let warned := bal < allocationUsdc
        (true, upsertPosition db (hlNewPosition w allocationUsdc now), warned)

/-- The `trade_amount` computation of `_open_long_position`
(fundis/agents/sentichain_btc_hyperliquid.py): the stored allocation (falling
back to `ctx.allocation_usdc` when no row exists) capped by the available
balance, `min(available_balance, allocation)`. -/
def hlOpenTradeAmount (db : PositionStore) (w : String)
    (allocationUsdc availableBalance : Rat) : Rat :=
  let alloc :=
    match getPosition db w HL_AGENT_NAME with
    | some p => p.allocated_amount
    | none => allocationUsdc
  min availableBalance alloc

/-! Perp order engine (fundis/hyperliquid.py). -/

/-- The per-symbol size precision table of `market_open_long_safe`:
BTC rounds to 4 decimals, ETH to 3, anything else to 4. -/
def sizeDecimals (coin : String) : Nat :=
  if coin = "BTC" then 4 else if coin = "ETH" then 3 else 4

/-- Python `round` to an integer: round half to even (the binary-float
rounding of CPython is idealised as exact half-even on rationals). -/
def roundHalfEven (x : Rat) : Int :=
  let f := ⌊x⌋
  let frac := x - f
  if frac < 1/2 then f
  else if 1/2 < frac then f + 1
  else if f % 2 = 0 then f else f + 1

/-- Python `round(x, n)`: round half to even at `n` decimal digits. -/
def pyRound (x : Rat) (n : Nat) : Rat :=
  (roundHalfEven (x * 10 ^ n) : Rat) / 10 ^ n

/-- Embedding of `check_can_open_position`: required margin is
`size_usd / leverage`, plus a fixed 10% buffer, compared against the
currently withdrawable margin (the explanatory reason string is dropped;
the float literal 1.1 is modelled as the exact rational 11/10). -/
def checkCanOpenPosition (withdrawable sizeUsd leverage : Rat) : Bool :=
  let requiredMargin := sizeUsd / leverage
  let requiredWithBuffer := requiredMargin * (11/10)
  if withdrawable < requiredWithBuffer then false else true

/-- Embedding of `market_open_long_safe`.  `withdrawable` is the venue's
reported withdrawable margin, `allMids` the venue mid-price table
(`float(all_mids.get(coin, 0))`), and `submit` the `exchange.market_open`
call on the computed size (`.error` models a raised exception).  Returns
the structured result and whether a market order was submitted.  The
interpolated failure messages of the source are abstracted to fixed
literals; no claim depends on the message text. -/
def marketOpenLongSafe (coin : String) (sizeUsd leverage withdrawable : Rat)
    (allMids : String → Option Rat) (submit : Rat → Except String RawResult) :
    OrderResult × Bool :=
  if checkCanOpenPosition withdrawable sizeUsd leverage = false then
    ({ success := false, filled_size := 0, avg_price := 0,
       status := "margin_check_failed", error := some "Insufficient margin" }, false)
  else
    let midPrice := (allMids coin).getD 0
    if midPrice ≤ 0 then
      ({ success := false, filled_size := 0, avg_price := 0,
         status := "price_error",
         error := some ("Could not get mid price for " ++ coin) }, false)
    else
      let size := pyRound (sizeUsd / midPrice) (sizeDecimals coin)
      if size ≤ 0 then
        ({ success := false, filled_size := 0, avg_price := 0,
           status := "size_error", error := some "Order size too small" }, false)
      else
        match submit size with
        | .ok raw => (parseOrderResult raw, true)
        | .error msg =>
          ({ success := false, filled_size := 0, avg_price := 0,
             status := "exception", error := some msg }, true)

/-- Embedding of `market_close_long_safe`.  `positionQ` is the result of
`get_position_for_coin` (`none` when the venue reports no position) and
`submit` the `exchange.market_close` call.  Returns the structured result
and whether a close order was submitted. -/
def marketCloseLongSafe (positionQ : Option VenuePosition)
    (submit : Unit → Except String RawResult) : OrderResult × Bool :=
  match positionQ with
  | none =>
    ({ success := true, filled_size := 0, avg_price := 0,
       status := "no_position", error := some "No open position found" }, false)
  | some p =>
    let szi := p.szi.getD 0
    if szi ≤ 0 then
      ({ success := true, filled_size := 0, avg_price := 0,
         status := "no_long_position", error := some "No long position to close" }, false)
    else
      match submit () with
      | .ok raw => (parseOrderResult raw, true)
      | .error msg =>
        ({ success := false, filled_size := 0, avg_price := 0,
           status := "exception", error := some msg }, true)

/-! Liquidation monitor (fundis/hyperliquid.py `check_liquidation_risk`). -/

/-- The `PositionInfo` dataclass of fundis/hyperliquid.py. -/
structure PosInfo where
  coin : String
  size : Rat
  entry_price : Rat
  unrealized_pnl : Rat
  liquidation_price : Option Rat
  margin_used : Rat
  leverage : Rat
  deriving Repr, DecidableEq

/-- The kind of message returned by `check_liquidation_risk` (the
interpolated message text is abstracted to its kind). -/
inductive RiskMsg where
  | noPosition
  | noLiqPrice
  | noCurrentPrice
  | longAtRisk
  | longOk
  | shortAtRisk
  | shortOk
  deriving Repr, DecidableEq

/-- Embedding of `check_liquidation_risk`.  `posInfo` is the result of
`get_position_info` (`none` when no position with nonzero size exists).
Note the Python falsiness check `not pos_info.liquidation_price` also fires
on a liquidation price of exactly 0. -/
def checkLiquidationRisk (posInfo : Option PosInfo)
    (allMids : String → Option Rat) (coin : String) : Bool × RiskMsg :=
  match posInfo with
  | none => (false, .noPosition)
  | some p =>
    match p.liquidation_price with
    | none => (false, .noLiqPrice)
    | some liq =>
      if liq = 0 then (false, .noLiqPrice)
      else
        let currentPrice := (allMids coin).getD 0
        if currentPrice ≤ 0 then (true, .noCurrentPrice)
        else if 0 < p.size then
          let distancePct := (currentPrice - liq) / currentPrice * 100
          if distancePct < 5 then (true, .longAtRisk) else (false, .longOk)
        else
          let distancePct := (liq - currentPrice) / currentPrice * 100
          if distancePct < 5 then (true, .shortAtRisk) else (false, .shortOk)

/-! The spot tick entry point (fundis/agents/sentichain_common.py
`run_update_generic` with `_perform_swap`).  Every external call is an
explicit `Except`-valued field of an environment record; `.error` models a
raised exception.  The embedding returns `Except Unit PositionStore`:
`.ok` is a normal return of the tick (with the final store), `.error` an
exception propagating out of the entry point to the caller. -/

/-- A SentiChain sentiment event (the `SentimentEvent` dataclass). -/
structure SentimentEvent where
  timestamp : String
  summary : String
  event : String
  sentiment : String
  deriving Repr, DecidableEq

/-- Python `str.lower`, written over the character list so it evaluates by
reduction (the sentiment labels are ASCII). -/
def pyLower (s : String) : String := String.mk (s.data.map Char.toLower)

/-- The `_sentiment_counts` tally for one label: events whose lowercased
sentiment equals the label ("bullish" or "bearish"). -/
def sentimentCount (events : List SentimentEvent) (label : String) : Nat :=
  (events.filter (fun e => pyLower e.sentiment == label)).length

deriving instance DecidableEq for Except

/-- The external-call outcomes consumed by `_perform_swap`, in call order.
`sim` is `try_aerodrome_swap_simulation` (guarded try), `allowanceQ` the
allowance read (guarded), `nonceQ` the nonce read (guarded), `gasPriceQ`
the bare `w3.eth.gas_price` read (NOT guarded in the source), `approveSendQ`
the approval build/sign/send/wait sequence yielding the receipt status
(guarded), `nonceRefreshQ` the post-approval nonce refresh (guarded), and
`swapSendQ` the swap build/sign/send/wait sequence yielding the receipt
status (guarded). -/
structure SwapEnv where
  sim : Except Unit (Option (Int × List Route))
  allowanceQ : Except Unit Int
  nonceQ : Except Unit Int
  gasPriceQ : Except Unit Int
  approveSendQ : Except Unit Int
  nonceRefreshQ : Except Unit Int
  swapSendQ : Except Unit Int
  deriving Repr, DecidableEq

/-- The final swap send/wait/receipt-check tail of `_perform_swap`. -/
def performSwapSend (env : SwapEnv) : Except Unit Bool :=
  match env.swapSendQ with
  | .error _ => .ok false
  | .ok st => if st ≠ 1 then .ok false else .ok true

/-- Embedding of `_perform_swap` (fundis/agents/sentichain_common.py).
Returns `.ok success?` on a normal return and `.error` when an exception
propagates (the only unguarded external call is the gas-price read). -/
def performSwap (env : SwapEnv) (amountRaw : Int) : Except Unit Bool :=
  match env.sim with
  | .error _ => .ok false
  | .ok none => .ok false
  | .ok (some _) =>
    match env.allowanceQ with
    | .error _ => .ok false
    | .ok allowance =>
      match env.nonceQ with
      | .error _ => .ok false
      | .ok _ =>
        match env.gasPriceQ with
        | .error e => .error e
        | .ok _ =>
          if allowance < amountRaw then
            match env.approveSendQ with
            | .error _ => .ok false
            | .ok st =>
              if st ≠ 1 then .ok false
              else
                match env.nonceRefreshQ with
                | .error _ => .ok false
                | .ok _ => performSwapSend env
          else performSwapSend env

/-- The external-call outcomes consumed by one `run_update_generic` tick.
`apiKey` is the resolved SentiChain key (`none` aborts the run), `fetchQ`
the guarded signal fetch, `allocBalanceQ` the guarded USDC balance read
inside `_ensure_allocation` (human value, token decimals), `balancesQ` the
guarded reconcile reads giving the raw USDC and quote-token balances,
`entryUsdcQ` the USDC balance re-read in the entry branch (NOT guarded in
the source), `exitQuoteQ` the quote-token balance re-read in the exit
branch (NOT guarded), and `swapEnv` the `_perform_swap` outcomes. -/
structure SpotTickEnv where
  apiKey : Option String
  fetchQ : Except Unit (List SentimentEvent)
  allocBalanceQ : Except Unit (Rat × Nat)
  balancesQ : Except Unit (Int × Int)
  entryUsdcQ : Except Unit (Rat × Int)
  exitQuoteQ : Except Unit (Rat × Int)
  swapEnv : SwapEnv
  deriving Repr, DecidableEq

/-- Embedding of `run_update_generic`: one tick of a spot SentiChain agent.
Control flow follows the source; `.ok` is a normal return (the tick always
logs and returns), `.error` an exception escaping the entry point. -/
def runUpdateGeneric (env : SpotTickEnv) (db : PositionStore)
    (w agentName ticker quoteToken quoteSymbol now : String) :
    Except Unit PositionStore :=
  match env.apiKey with
  | none => .ok db
  | some _ =>
    match env.fetchQ with
    | .error _ => .ok db
    | .ok events =>
      let bullish := sentimentCount events "bullish"
      let bearish := sentimentCount events "bearish"
      if bullish = 0 ∧ bearish = 0 then .ok db
      else if bullish = bearish then .ok db
      else
        match spotEnsureAllocation db w agentName ticker quoteToken env.allocBalanceQ now with
        | (none, db1) => .ok db1
        | (some pos, db1) =>
          match env.balancesQ with
          | .error _ => .ok db1
          | .ok (_usdcRaw, quoteRaw) =>
            let side0 := pos.current_position
            let sideDb :=
              if quoteRaw ≤ 0 ∧ side0 ≠ "USDC" then
                ("USDC", updatePositionSide db1 w agentName "USDC" now)
              else if 0 < quoteRaw ∧ side0 ≠ quoteSymbol then
                (quoteSymbol, updatePositionSide db1 w agentName quoteSymbol now)
              else (side0, db1)
            let side := sideDb.1
            let db2 := sideDb.2
            if bullish > bearish then
              if side = "USDC" then
                match env.entryUsdcQ with
                | .error e => .error e
                | .ok (_h, usdcRaw2) =>
                  let amountRaw := min usdcRaw2 pos.allocated_amount_raw
                  if amountRaw ≤ 0 then .ok db2
                  else
                    match performSwap env.swapEnv amountRaw with
                    | .error e => .error e
                    | .ok true => .ok (updatePositionSide db2 w agentName quoteSymbol now)
                    | .ok false => .ok db2
              else .ok db2
            else
              if side = "USDC" then .ok db2
              else
                match env.exitQuoteQ with
                | .error e => .error e
                | .ok (_h, quoteRaw2) =>
                  if quoteRaw2 ≤ 0 then .ok db2
                  else
                    match performSwap env.swapEnv quoteRaw2 with
                    | .error e => .error e
                    | .ok true => .ok (updatePositionSide db2 w agentName "USDC" now)
                    | .ok false => .ok db2

/-- The tick environment witnessing the uncaught exception: a valid key, a
single bullish event, an existing "USDC"-side allocation row, successful
guarded reads, and a USDC balance re-read in the entry branch that raises. -/
def uncaughtTickEnv : SpotTickEnv :=
  { apiKey := some "key",
    fetchQ := .ok [{ timestamp := "t1", summary := "s", event := "e", sentiment := "bullish" }],
    allocBalanceQ := .ok (20, 6),
    balancesQ := .ok (20000000, 0),
    entryUsdcQ := .error (),
    exitQuoteQ := .ok (0, 0),
    swapEnv :=
      { sim := .ok none, allowanceQ := .ok 0, nonceQ := .ok 0, gasPriceQ := .ok 1,
        approveSendQ := .ok 1, nonceRefreshQ := .ok 1, swapSendQ := .ok 1 } }

/-- The store for the uncaught-exception tick: one allocation row for the
spot BTC agent, currently on the USDC side. -/
def uncaughtTickDb : PositionStore :=
  [{ wallet_address := "0xW", agent_name := "SentiChain BTC Agent on Base",
     ticker := "BTC", base_token := USDC_ADDRESS, quote_token := WBTC_ADDRESS,
     allocated_amount := 10, allocated_amount_raw := 10000000,
     current_position := "USDC", last_updated_at := "t0" }]

/-- A store holding one Hyperliquid-agent allocation row whose stored side
is "FLAT" (the reconciliation scenario of the spec). -/
def hlFlatDb : PositionStore :=
  [{ wallet_address := "0xW", agent_name := "SentiChain BTC Agent on Hyperliquid",
     ticker := "BTC", base_token := "USDC", quote_token := "BTC",
     allocated_amount := 10, allocated_amount_raw := 10000000,
     current_position := "FLAT", last_updated_at := "t0" }]

/-- The first status item of the spec's example filled response. -/
def filledItemEx : StatusItem :=
  { error := none,
    filled := some { totalSz := some (1/1000), avgPx := some 95000 },
    resting := false }

/-- The spec's example filled response: totalSz "0.001", avgPx "95000". -/
def filledResponseEx : RawResult :=
  { status := some "ok",
    response := some { data := some { statuses := some [filledItemEx] } } }

/-- The first status item of the spec's example error response. -/
def errorItemEx : StatusItem :=
  { error := some "Insufficient margin", filled := none, resting := false }

/-- The spec's example error response: message "Insufficient margin". -/
def errorResponseEx : RawResult :=
  { status := some "ok",
    response := some { data := some { statuses := some [errorItemEx] } } }

/-- A long position used to witness the liquidation-risk check: size 1,
liquidation price 96. -/
def riskPosEx : PosInfo :=
  { coin := "BTC", size := 1, entry_price := 90, unrealized_pnl := 0,
    liquidation_price := some 96, margin_used := 10, leverage := 1 }

/-! Store lemmas shared by several of the proofs below. -/

theorem rowKeyIs_set_side (r : PositionRow) (w a s t : String) :
    rowKeyIs { r with current_position := s, last_updated_at := t } w a =
      rowKeyIs r w a := rfl

theorem find?_key_cons_pos (r : PositionRow) (l : List PositionRow) (w a : String)
    (h : rowKeyIs r w a = true) :
    List.find? (fun x => rowKeyIs x w a) (r :: l) = some r := by
  simp [List.find?, h]

theorem find?_key_cons_neg (r : PositionRow) (l : List PositionRow) (w a : String)
    (h : rowKeyIs r w a = false) :
    List.find? (fun x => rowKeyIs x w a) (r :: l) =
      List.find? (fun x => rowKeyIs x w a) l := by
  simp [List.find?, h]

theorem getPosition_update (db : PositionStore) (w a s t : String) :
    getPosition (updatePositionSide db w a s t) w a =
      (getPosition db w a).map
        (fun r => { r with current_position := s, last_updated_at := t }) := by
  induction db with
  | nil => rfl
  | cons r rest ih =>
    by_cases h : rowKeyIs r w a
    · simp only [updatePositionSide, List.map_cons, if_pos h, getPosition]
      rw [find?_key_cons_pos _ _ _ _
            (show rowKeyIs { r with current_position := s, last_updated_at := t } w a = true from h),
          find?_key_cons_pos _ _ _ _ h, Option.map_some']
    · simp only [updatePositionSide, List.map_cons, if_neg h, getPosition]
      rw [find?_key_cons_neg _ _ _ _ (by simpa using h),
          find?_key_cons_neg _ _ _ _ (by simpa using h)]
      exact ih

theorem updatePositionSide_absent (db : PositionStore) (w a s t : String)
    (h : getPosition db w a = none) :
    updatePositionSide db w a s t = db := by
  induction db with
  | nil => rfl
  | cons r rest ih =>
    by_cases hr : rowKeyIs r w a
    · rw [getPosition, find?_key_cons_pos _ _ _ _ hr] at h
      exact absurd h (by simp)
    · rw [getPosition, find?_key_cons_neg _ _ _ _ (by simpa using hr)] at h
      simp only [updatePositionSide, List.map_cons, if_neg hr]
      exact congrArg (fun l => r :: l) (ih h)

theorem getPosition_append_of_absent (db : PositionStore) (p : PositionRow)
    (w a : String) (h : getPosition db w a = none) (hp : rowKeyIs p w a = true) :
    getPosition (db ++ [p]) w a = some p := by
  induction db with
  | nil =>
    rw [List.nil_append, getPosition, find?_key_cons_pos _ _ _ _ hp]
  | cons r rest ih =>
    by_cases hr : rowKeyIs r w a
    · rw [getPosition, find?_key_cons_pos _ _ _ _ hr] at h
      exact absurd h (by simp)
    · rw [getPosition, find?_key_cons_neg _ _ _ _ (by simpa using hr)] at h
      rw [List.cons_append, getPosition, find?_key_cons_neg _ _ _ _ (by simpa using hr)]
      exact ih h

/-! Claim C2: result classification state machine. -/

/-- C2: for every raw venue order response, `parse_order_result` applies
mutually exclusive rules in order, first match wins: top-level status other
than "ok" fails with the raw status; an empty/missing statuses list fails
with "no_statuses"; a first item carrying an error field fails with "error"
and that message; a first item carrying a filled field succeeds with
"filled" and the parsed fill size and average price; a first item carrying a
resting field succeeds with "resting"; anything else fails with "unknown". -/
theorem parse_order_result_state_machine (r : RawResult) :
    (r.status.getD "" ≠ "ok" →
      (parseOrderResult r).success = false ∧
      (parseOrderResult r).status = r.status.getD "") ∧
    (r.status.getD "" = "ok" → r.statusList = [] →
      (parseOrderResult r).success = false ∧
      (parseOrderResult r).status = "no_statuses") ∧
    (∀ first rest msg, r.status.getD "" = "ok" → r.statusList = first :: rest →
      first.error = some msg →
      parseOrderResult r =
        { success := false, filled_size := 0, avg_price := 0,
          status := "error", error := some msg }) ∧
    (∀ first rest f, r.status.getD "" = "ok" → r.statusList = first :: rest →
      first.error = none → first.filled = some f →
      parseOrderResult r =
        { success := true, filled_size := f.totalSz.getD 0,
          avg_price := f.avgPx.getD 0, status := "filled", error := none }) ∧
    (∀ first rest, r.status.getD "" = "ok" → r.statusList = first :: rest →
      first.error = none → first.filled = none → first.resting = true →
      (parseOrderResult r).success = true ∧
      (parseOrderResult r).status = "resting") ∧
    (∀ first rest, r.status.getD "" = "ok" → r.statusList = first :: rest →
      first.error = none → first.filled = none → first.resting = false →
      (parseOrderResult r).success = false ∧
      (parseOrderResult r).status = "unknown") := by
  refine ⟨?_, ?_, ?_, ?_, ?_, ?_⟩ <;> intros <;> simp_all [parseOrderResult]

/-- Witness for C2 at the spec's two concrete responses: a filled status
with totalSz "0.001" and avgPx "95000" classifies as a successful fill of
size 0.001 at 95000, and an error status with message "Insufficient margin"
classifies as a failed "error" result carrying that message. -/
theorem parse_order_result_state_machine_check :
    parseOrderResult filledResponseEx =
      { success := true, filled_size := 1/1000, avg_price := 95000,
        status := "filled", error := none } ∧
    parseOrderResult errorResponseEx =
      { success := false, filled_size := 0, avg_price := 0,
        status := "error", error := some "Insufficient margin" } := by
  constructor
  · have h := (parse_order_result_state_machine filledResponseEx).2.2.2.1
      filledItemEx [] { totalSz := some (1/1000), avgPx := some 95000 }
      rfl rfl rfl rfl
    simpa [filledItemEx] using h
  · have h := (parse_order_result_state_machine errorResponseEx).2.2.1
      errorItemEx [] "Insufficient margin" rfl rfl rfl
    simpa using h

/-! Claim C1: perpetual position reconciliation. -/

/-- C1: for every reconciliation call, the true side is "LONG" exactly when
the venue-reported signed size is > 0 and "FLAT" otherwise (including when
no position exists); when the stored side differs from the true side the
stored side is overwritten through the store's partial side update and the
true side is returned; when the stored side already agrees nothing is
written; and when the venue query raises, the last stored side is returned
and no write occurs. -/
theorem reconcile_position_state_rules (db : PositionStore) (w now : String)
    (venueQ : Except Unit (Option VenuePosition)) :
    (∀ posQ, venueQ = .ok posQ →
      (reconcilePositionState db w venueQ now).1 =
        if 0 < ((posQ.bind VenuePosition.szi).getD 0 : Rat) then "LONG" else "FLAT") ∧
    (∀ posQ, venueQ = .ok posQ → getStoredPosition db w ≠ perpTrueSide posQ →
      (reconcilePositionState db w venueQ now).2.1 =
        updatePositionSide db w HL_AGENT_NAME (perpTrueSide posQ) now ∧
      (reconcilePositionState db w venueQ now).2.2 = true) ∧
    (∀ posQ, venueQ = .ok posQ → getStoredPosition db w = perpTrueSide posQ →
      reconcilePositionState db w venueQ now = (getStoredPosition db w, db, false)) ∧
    (∀ e, venueQ = .error e →
      reconcilePositionState db w venueQ now = (getStoredPosition db w, db, false)) := by
  have hts : ∀ posQ : Option VenuePosition,
      perpTrueSide posQ =
        if 0 < ((posQ.bind VenuePosition.szi).getD 0 : Rat) then "LONG" else "FLAT" := by
    intro posQ; cases posQ <;> simp [perpTrueSide]
  refine ⟨?_, ?_, ?_, ?_⟩
  · intro posQ hq; subst hq
    by_cases h : getStoredPosition db w = perpTrueSide posQ <;>
      rw [← hts] <;> simp [reconcilePositionState, h]
  · intro posQ hq h; subst hq
    simp [reconcilePositionState, h]
  · intro posQ hq h; subst hq
    simp [reconcilePositionState, h]
  · intro e hq; subst hq
    simp [reconcilePositionState]

/-- Witness for C1 at the spec's scenario: stored side "FLAT" and a venue
position of signed size 0.01 reconcile to "LONG", and the corrected side is
persisted through the partial side update. -/
theorem reconcile_position_state_rules_check :
    getStoredPosition hlFlatDb "0xW" = "FLAT" ∧
    perpTrueSide (some { szi := some (1/100) }) = "LONG" ∧
    (reconcilePositionState hlFlatDb "0xW" (.ok (some { szi := some (1/100) })) "t1").1 = "LONG" ∧
    (reconcilePositionState hlFlatDb "0xW" (.ok (some { szi := some (1/100) })) "t1").2.1 =
      updatePositionSide hlFlatDb "0xW" HL_AGENT_NAME "LONG" "t1" ∧
    (reconcilePositionState hlFlatDb "0xW" (.ok (some { szi := some (1/100) })) "t1").2.2 = true ∧
    getStoredPosition
      (reconcilePositionState hlFlatDb "0xW" (.ok (some { szi := some (1/100) })) "t1").2.1
      "0xW" = "LONG" := by
  have hperp : perpTrueSide (some { szi := some (1/100) }) = "LONG" := by
    norm_num [perpTrueSide]
  have h := reconcile_position_state_rules hlFlatDb "0xW" "t1"
    (.ok (some { szi := some (1/100) }))
  have h1 := h.1 (some { szi := some (1/100) }) rfl
  have h2 := h.2.1 (some { szi := some (1/100) }) rfl (by rw [hperp]; decide)
  refine ⟨by decide, hperp, ?_, ?_, h2.2, ?_⟩
  · rw [h1]; norm_num
  · rw [h2.1, hperp]
  · rw [h2.1, hperp]; decide

/-! Claim C9: reconciliation idempotence. -/

/-- C9: for every store and fixed venue outcome, running reconciliation
twice returns the same side both times, the second run leaves the store
exactly as the first run left it, and — whenever a row exists for the key —
the second run issues no write at all (the first run already made the
stored side equal to the true side). -/
theorem reconcile_position_state_idempotent (db : PositionStore) (w now1 now2 : String)
    (venueQ : Except Unit (Option VenuePosition)) :
    (reconcilePositionState (reconcilePositionState db w venueQ now1).2.1 w venueQ now2).1 =
      (reconcilePositionState db w venueQ now1).1 ∧
    (reconcilePositionState (reconcilePositionState db w venueQ now1).2.1 w venueQ now2).2.1 =
      (reconcilePositionState db w venueQ now1).2.1 ∧
    ((getPosition db w HL_AGENT_NAME).isSome →
      (reconcilePositionState (reconcilePositionState db w venueQ now1).2.1 w venueQ now2).2.2 =
        false) := by
  cases venueQ with
  | error e => simp [reconcilePositionState]
  | ok posQ =>
    by_cases h : getStoredPosition db w = perpTrueSide posQ
    · simp [reconcilePositionState, h]
    · cases hg : getPosition db w HL_AGENT_NAME with
      | some r =>
        have hgs1 : getStoredPosition
            (updatePositionSide db w HL_AGENT_NAME (perpTrueSide posQ) now1) w =
            perpTrueSide posQ := by
          simp [getStoredPosition, getPosition_update, hg]
        simp [reconcilePositionState, h, hgs1]
      | none =>
        have hupd1 : updatePositionSide db w HL_AGENT_NAME (perpTrueSide posQ) now1 = db :=
          updatePositionSide_absent db w HL_AGENT_NAME (perpTrueSide posQ) now1 hg
        have hupd2 : updatePositionSide db w HL_AGENT_NAME (perpTrueSide posQ) now2 = db :=
          updatePositionSide_absent db w HL_AGENT_NAME (perpTrueSide posQ) now2 hg
        simp [reconcilePositionState, h, hupd1, hupd2, hg]

/-- Witness for C9 at a concrete store holding a "FLAT" row and a venue
reporting a long of size 1: the two runs agree, the second leaves the store
as the first did, and the second issues no write. -/
theorem reconcile_position_state_idempotent_check :
    (getPosition hlFlatDb "0xW" HL_AGENT_NAME).isSome = true ∧
    (reconcilePositionState
        (reconcilePositionState hlFlatDb "0xW" (.ok (some { szi := some 1 })) "t1").2.1
        "0xW" (.ok (some { szi := some 1 })) "t2").1 =
      (reconcilePositionState hlFlatDb "0xW" (.ok (some { szi := some 1 })) "t1").1 ∧
    (reconcilePositionState
        (reconcilePositionState hlFlatDb "0xW" (.ok (some { szi := some 1 })) "t1").2.1
        "0xW" (.ok (some { szi := some 1 })) "t2").2.1 =
      (reconcilePositionState hlFlatDb "0xW" (.ok (some { szi := some 1 })) "t1").2.1 ∧
    (reconcilePositionState
        (reconcilePositionState hlFlatDb "0xW" (.ok (some { szi := some 1 })) "t1").2.1
        "0xW" (.ok (some { szi := some 1 })) "t2").2.2 = false := by
  have h := reconcile_position_state_idempotent hlFlatDb "0xW" "t1" "t2"
    (.ok (some { szi := some 1 }))
  exact ⟨by decide, h.1, h.2.1, h.2.2 (by decide)⟩

/-! Claim C10: partial side update on a missing key. -/

/-- C10: for every key with no stored row, `update_position_side` is a
silent no-op — it raises nothing (the embedding is total), creates no row
and leaves the entire position store unchanged. -/
theorem update_position_side_missing_noop (db : PositionStore)
    (w a newSide now : String) (h : getPosition db w a = none) :
    updatePositionSide db w a newSide now = db :=
  updatePositionSide_absent db w a newSide now h

/-- Witness for C10: updating the side for a key that has no row in a
one-row store leaves the store unchanged. -/
theorem update_position_side_missing_noop_check :
    getPosition hlFlatDb "0xB" "agentY" = none ∧
    updatePositionSide hlFlatDb "0xB" "agentY" "LONG" "t9" = hlFlatDb :=
  ⟨by decide,
   update_position_side_missing_noop hlFlatDb "0xB" "agentY" "LONG" "t9" (by decide)⟩

/-! Claim C3: first-viable spot route resolution. -/

theorem tryAeroLoop_eq_findSome (quoteFn : List Route → Except Unit (List Int))
    (cands : List (List Route)) :
    tryAeroLoop quoteFn cands =
      cands.findSome? (fun c => (positiveQuoteSpec quoteFn c).map (fun out => (out, c))) := by
  induction cands with
  | nil => rfl
  | cons c rest ih =>
    cases hq : quoteFn c with
    | error e => simp [tryAeroLoop, positiveQuoteSpec, hq, List.findSome?_cons, ih]
    | ok amounts =>
      cases hl : amounts.getLast? with
      | none => simp [tryAeroLoop, positiveQuoteSpec, hq, hl, List.findSome?_cons, ih]
      | some out =>
        by_cases hpos : 0 < out
        · simp [tryAeroLoop, positiveQuoteSpec, hq, hl, hpos, List.findSome?_cons]
        · simp [tryAeroLoop, positiveQuoteSpec, hq, hl, hpos, List.findSome?_cons, ih]

/-- C3: the spot route resolver probes the fixed ordered candidate list —
volatile direct, stable direct, concentrated-liquidity direct — and returns
the first candidate whose quote yields a positive output together with that
output (`List.findSome?` of the positive-quote function, so an erroring or
non-positive candidate is skipped and `none` is returned when every
candidate fails); the closing conjunct shows a run where the first
candidate quotes 5 and later candidates would quote 100, yet the first one
is returned. -/
theorem try_aerodrome_swap_simulation_first_viable
    (tokenIn tokenOut : String) (amountIn : Int)
    (quoteFn : Int → List Route → Except Unit (List Int)) :
    tryAerodromeSwapSimulation tokenIn tokenOut amountIn quoteFn =
      (routeCandidates tokenIn tokenOut).findSome?
        (fun c => (positiveQuoteSpec (quoteFn amountIn) c).map (fun out => (out, c))) ∧
    routeCandidates tokenIn tokenOut =
      [ [{ frm := tokenIn, toAddr := tokenOut, stable := false, factory := AERODROME_FACTORY_V2 }],
        [{ frm := tokenIn, toAddr := tokenOut, stable := true, factory := AERODROME_FACTORY_V2 }],
        [{ frm := tokenIn, toAddr := tokenOut, stable := false, factory := AERODROME_FACTORY_CL }] ] ∧
    tryAerodromeSwapSimulation "tokA" "tokB" 1000
        (fun _ c =>
          if c = [{ frm := "tokA", toAddr := "tokB", stable := false,
                    factory := AERODROME_FACTORY_V2 }] then
            .ok [5]
          else .ok [100]) =
      some (5, [{ frm := "tokA", toAddr := "tokB", stable := false,
                  factory := AERODROME_FACTORY_V2 }]) :=
  ⟨tryAeroLoop_eq_findSome _ _, rfl, by decide⟩

/-! Claim C4: allocation below the cap. -/

/-- C4 counterexample: on the spot allocation path the cap is the fixed
10 USDC and a positive observed balance of 7 — strictly below the cap —
creates no position at all (the run is skipped), contradicting the claim
that every balance b with 0 < b < cap succeeds with a warning and creates
a Position with allocated_amount = cap. -/
theorem spot_ensure_allocation_below_cap_fails :
    spotAllocationNeeded = 10 ∧
    (0:Rat) < 7 ∧ (7:Rat) < spotAllocationNeeded ∧
    (spotEnsureAllocation [] "0xW" "SentiChain BTC Agent on Base" "BTC"
        WBTC_ADDRESS (.ok (7, 6)) "t0").1 = none ∧
    (spotEnsureAllocation [] "0xW" "SentiChain BTC Agent on Base" "BTC"
        WBTC_ADDRESS (.ok (7, 6)) "t0").2 = [] := by
  refine ⟨rfl, by decide, by decide, ?_, ?_⟩ <;> decide

/-- C4 amended: on the Hyperliquid allocation path, for every cap c and
observed balance b with 0 < b < c and no pre-existing row, ensure_allocation
succeeds, emits the below-cap warning, persists a Position whose
allocated_amount is the full cap c, and the subsequent entry trade amount is
min(b, c) = b, not the full cap.  (On the spot path, by contrast, a balance
below the fixed 10 USDC cap fails with no position created — see the
counterexample.) -/
theorem hl_ensure_allocation_below_cap (db : PositionStore) (w now : String)
    (cap b : Rat) (hdb : getPosition db w HL_AGENT_NAME = none)
    (h0 : 0 < b) (hb : b < cap) :
    (hlEnsureAllocation db w cap (.ok b) now).1 = true ∧
    (hlEnsureAllocation db w cap (.ok b) now).2.2 = true ∧
    getPosition (hlEnsureAllocation db w cap (.ok b) now).2.1 w HL_AGENT_NAME =
      some (hlNewPosition w cap now) ∧
    (hlNewPosition w cap now).allocated_amount = cap ∧
    hlOpenTradeAmount (hlEnsureAllocation db w cap (.ok b) now).2.1 w cap b = b := by
  have hnotle : ¬ b ≤ 0 := not_le.mpr h0
  have hup : (hlEnsureAllocation db w cap (.ok b) now).2.1 =
      upsertPosition db (hlNewPosition w cap now) := by
    simp [hlEnsureAllocation, hdb, hnotle]
  have hkey : rowKeyIs (hlNewPosition w cap now) w HL_AGENT_NAME = true := by
    simp [rowKeyIs, hlNewPosition]
  have hupex : upsertPosition db (hlNewPosition w cap now) =
      db ++ [hlNewPosition w cap now] := by
    have hgp : getPosition db (hlNewPosition w cap now).wallet_address
        (hlNewPosition w cap now).agent_name = none := hdb
    simp [upsertPosition, hgp]
  have hget : getPosition (hlEnsureAllocation db w cap (.ok b) now).2.1 w HL_AGENT_NAME =
      some (hlNewPosition w cap now) := by
    rw [hup, hupex]
    exact getPosition_append_of_absent db _ w HL_AGENT_NAME hdb hkey
  refine ⟨?_, ?_, hget, rfl, ?_⟩
  · simp [hlEnsureAllocation, hdb, hnotle]
  · simp [hlEnsureAllocation, hdb, hnotle, hb]
  · simp [hlOpenTradeAmount, hget, hlNewPosition, min_eq_left hb.le]

/-- Witness for C4 (amended) at the spec's scenario: cap 10 and balance 7
create a Position with allocated_amount 10, warn, and trade min(7, 10) = 7. -/
theorem hl_ensure_allocation_below_cap_check :
    (0:Rat) < 7 ∧ (7:Rat) < 10 ∧
    (hlEnsureAllocation [] "0xW" 10 (.ok 7) "t0").1 = true ∧
    (hlEnsureAllocation [] "0xW" 10 (.ok 7) "t0").2.2 = true ∧
    getPosition (hlEnsureAllocation [] "0xW" 10 (.ok 7) "t0").2.1 "0xW" HL_AGENT_NAME =
      some (hlNewPosition "0xW" 10 "t0") ∧
    (hlNewPosition "0xW" 10 "t0").allocated_amount = 10 ∧
    hlOpenTradeAmount (hlEnsureAllocation [] "0xW" 10 (.ok 7) "t0").2.1 "0xW" 10 7 = 7 := by
  have h := hl_ensure_allocation_below_cap [] "0xW" "t0" 10 7 rfl (by decide) (by decide)
  exact ⟨by decide, by decide, h.1, h.2.1, h.2.2.1, h.2.2.2.1, h.2.2.2.2⟩

/-! Claim C6: staged checks of the safe open-long path. -/

/-- C6: for every open-long call, the checks are staged and each failure
returns its specific status with no order submitted: withdrawable margin
below (notional / leverage) * 1.1 fails with "margin_check_failed" (no
partial sizing); otherwise an unavailable or non-positive mid-price fails
with "price_error"; otherwise a computed size notional / mid rounded to the
fixed per-symbol precision (BTC 4 decimals, ETH 3, default 4) that is ≤ 0
fails with "size_error"; only when all three checks pass is a market order
submitted. -/
theorem market_open_long_safe_staged (coin : String)
    (sizeUsd leverage withdrawable : Rat) (allMids : String → Option Rat)
    (submit : Rat → Except String RawResult) :
    (withdrawable < sizeUsd / leverage * (11/10) →
      (marketOpenLongSafe coin sizeUsd leverage withdrawable allMids submit).1.success = false ∧
      (marketOpenLongSafe coin sizeUsd leverage withdrawable allMids submit).1.status =
        "margin_check_failed" ∧
      (marketOpenLongSafe coin sizeUsd leverage withdrawable allMids submit).2 = false) ∧
    (¬ withdrawable < sizeUsd / leverage * (11/10) →
      (allMids coin).getD 0 ≤ 0 →
      (marketOpenLongSafe coin sizeUsd leverage withdrawable allMids submit).1.success = false ∧
      (marketOpenLongSafe coin sizeUsd leverage withdrawable allMids submit).1.status =
        "price_error" ∧
      (marketOpenLongSafe coin sizeUsd leverage withdrawable allMids submit).2 = false) ∧
    (¬ withdrawable < sizeUsd / leverage * (11/10) →
      0 < (allMids coin).getD 0 →
      pyRound (sizeUsd / (allMids coin).getD 0) (sizeDecimals coin) ≤ 0 →
      (marketOpenLongSafe coin sizeUsd leverage withdrawable allMids submit).1.success = false ∧
      (marketOpenLongSafe coin sizeUsd leverage withdrawable allMids submit).1.status =
        "size_error" ∧
      (marketOpenLongSafe coin sizeUsd leverage withdrawable allMids submit).2 = false) ∧
    (¬ withdrawable < sizeUsd / leverage * (11/10) →
      0 < (allMids coin).getD 0 →
      0 < pyRound (sizeUsd / (allMids coin).getD 0) (sizeDecimals coin) →
      (marketOpenLongSafe coin sizeUsd leverage withdrawable allMids submit).2 = true) ∧
    sizeDecimals "BTC" = 4 ∧ sizeDecimals "ETH" = 3 ∧
    (coin ≠ "BTC" → coin ≠ "ETH" → sizeDecimals coin = 4) := by
  refine ⟨?_, ?_, ?_, ?_, rfl, rfl, ?_⟩
  · intro hm
    have hc : checkCanOpenPosition withdrawable sizeUsd leverage = false := by
      simp [checkCanOpenPosition, hm]
    simp [marketOpenLongSafe, hc]
  · intro hm hp
    have hc : checkCanOpenPosition withdrawable sizeUsd leverage = true := by
      simp [checkCanOpenPosition, hm]
    simp [marketOpenLongSafe, hc, hp]
  · intro hm hp hs
    have hc : checkCanOpenPosition withdrawable sizeUsd leverage = true := by
      simp [checkCanOpenPosition, hm]
    have hple : ¬ ((allMids coin).getD 0 ≤ 0) := not_le.mpr hp
    simp [marketOpenLongSafe, hc, hple, hs]
  · intro hm hp hs
    have hc : checkCanOpenPosition withdrawable sizeUsd leverage = true := by
      simp [checkCanOpenPosition, hm]
    have hple : ¬ ((allMids coin).getD 0 ≤ 0) := not_le.mpr hp
    have hsle : ¬ (pyRound (sizeUsd / (allMids coin).getD 0) (sizeDecimals coin) ≤ 0) :=
      not_le.mpr hs
    cases hsub : submit (pyRound (sizeUsd / (allMids coin).getD 0) (sizeDecimals coin)) <;>
      simp [marketOpenLongSafe, hc, hple, hsle, hsub]
  · intro h1 h2
    simp [sizeDecimals, h1, h2]

/-- Witness for C6: concrete runs reaching each stage — no margin fails the
margin check with nothing submitted; a missing mid-price fails with
"price_error"; a notional of 0.001 USD at mid-price 95000 rounds to size 0
and fails with "size_error"; and 100 USD at mid 95000 with ample margin
reaches submission. -/
theorem market_open_long_safe_staged_check :
    (marketOpenLongSafe "BTC" 100 1 0 (fun _ => some 95000) (fun _ => .error "net")).1.status =
      "margin_check_failed" ∧
    (marketOpenLongSafe "BTC" 100 1 0 (fun _ => some 95000) (fun _ => .error "net")).2 = false ∧
    (marketOpenLongSafe "BTC" 100 1 1000 (fun _ => none) (fun _ => .error "net")).1.status =
      "price_error" ∧
    (marketOpenLongSafe "BTC" (1/1000) 1 1000 (fun _ => some 95000) (fun _ => .error "net")).1.status =
      "size_error" ∧
    (marketOpenLongSafe "BTC" 100 1 1000 (fun _ => some 95000) (fun _ => .error "net")).2 =
      true := by
  have h1 := (market_open_long_safe_staged "BTC" 100 1 0
    (fun _ => some 95000) (fun _ => .error "net")).1 (by norm_num)
  have h2 := (market_open_long_safe_staged "BTC" 100 1 1000
    (fun _ => none) (fun _ => .error "net")).2.1 (by norm_num) (by simp)
  have h3 := (market_open_long_safe_staged "BTC" (1/1000) 1 1000
    (fun _ => some 95000) (fun _ => .error "net")).2.2.1 (by norm_num)
    (by norm_num) (by norm_num [pyRound, roundHalfEven, sizeDecimals])
  have h4 := (market_open_long_safe_staged "BTC" 100 1 1000
    (fun _ => some 95000) (fun _ => .error "net")).2.2.2.1 (by norm_num)
    (by norm_num) (by norm_num [pyRound, roundHalfEven, sizeDecimals])
  exact ⟨h1.2.1, h1.2.2, h2.2.1, h3.2.1, h4⟩

/-! Claim C7: safe close-long guards. -/

/-- C7: for every close-long call, a venue report of no position returns
success with status "no_position" and submits nothing; a position whose
signed size is not positive returns success with status "no_long_position"
and submits nothing; only a positive signed size leads to submitting a
market-close order. -/
theorem market_close_long_safe_guards (positionQ : Option VenuePosition)
    (submit : Unit → Except String RawResult) :
    (positionQ = none →
      marketCloseLongSafe positionQ submit =
        ({ success := true, filled_size := 0, avg_price := 0,
           status := "no_position", error := some "No open position found" }, false)) ∧
    (∀ p, positionQ = some p → p.szi.getD 0 ≤ 0 →
      marketCloseLongSafe positionQ submit =
        ({ success := true, filled_size := 0, avg_price := 0,
           status := "no_long_position",
           error := some "No long position to close" }, false)) ∧
    (∀ p, positionQ = some p → 0 < p.szi.getD 0 →
      (marketCloseLongSafe positionQ submit).2 = true) := by
  refine ⟨?_, ?_, ?_⟩
  · intro h; subst h; rfl
  · intro p hq hs; subst hq
    simp [marketCloseLongSafe, hs]
  · intro p hq hs; subst hq
    have hsle : ¬ (p.szi.getD 0 ≤ 0) := not_le.mpr hs
    cases hsub : submit () <;> simp [marketCloseLongSafe, hsle, hsub]

/-- Witness for C7: no position closes nothing with "no_position"; a short
of size -2 closes nothing with "no_long_position"; a long of size 3 reaches
submission. -/
theorem market_close_long_safe_guards_check :
    marketCloseLongSafe none (fun _ => .error "net") =
      ({ success := true, filled_size := 0, avg_price := 0,
         status := "no_position", error := some "No open position found" }, false) ∧
    marketCloseLongSafe (some { szi := some (-2) }) (fun _ => .error "net") =
      ({ success := true, filled_size := 0, avg_price := 0,
         status := "no_long_position",
         error := some "No long position to close" }, false) ∧
    (marketCloseLongSafe (some { szi := some 3 }) (fun _ => .error "net")).2 = true := by
  have h1 := (market_close_long_safe_guards none (fun _ => .error "net")).1 rfl
  have h2 := (market_close_long_safe_guards (some { szi := some (-2) })
    (fun _ => .error "net")).2.1 { szi := some (-2) } rfl (by norm_num)
  have h3 := (market_close_long_safe_guards (some { szi := some 3 })
    (fun _ => .error "net")).2.2 { szi := some 3 } rfl (by norm_num)
  exact ⟨h1, h2, h3⟩

/-! Claim C8: liquidation-risk check for a long position. -/

/-- C8: with no known liquidation price the result is not-at-risk (also
when no position exists); otherwise, for a long position and an available
current price, the at-risk flag is set exactly when the signed distance
(current − liq) / current falls below the fixed 5% threshold. -/
theorem check_liquidation_risk_long_rules (p : PosInfo)
    (allMids : String → Option Rat) (coin : String) :
    (checkLiquidationRisk none allMids coin).1 = false ∧
    (p.liquidation_price = none →
      (checkLiquidationRisk (some p) allMids coin).1 = false) ∧
    (∀ liq, p.liquidation_price = some liq → liq ≠ 0 → 0 < p.size →
      0 < (allMids coin).getD 0 →
      ((checkLiquidationRisk (some p) allMids coin).1 = true ↔
        ((allMids coin).getD 0 - liq) / (allMids coin).getD 0 * 100 < 5)) := by
  refine ⟨rfl, ?_, ?_⟩
  · intro h; simp [checkLiquidationRisk, h]
  · intro liq hq hz hsz hcp
    have hnle : ¬ ((allMids coin).getD 0 ≤ 0) := not_le.mpr hcp
    by_cases hd : ((allMids coin).getD 0 - liq) / (allMids coin).getD 0 * 100 < 5 <;>
      simp [checkLiquidationRisk, hq, hz, hsz, hnle, hd]

/-- Witness for C8: a long of size 1 with liquidation price 96 and current
price 100 has distance 4% < 5% and is flagged at risk. -/
theorem check_liquidation_risk_long_rules_check :
    (checkLiquidationRisk (some riskPosEx) (fun _ => some 100) "BTC").1 = true := by
  have h := (check_liquidation_risk_long_rules riskPosEx
    (fun _ => some 100) "BTC").2.2 96 rfl (by norm_num) (by norm_num [riskPosEx])
    (by norm_num)
  exact h.mpr (by norm_num)

/-! Claim C5: totality of the tick entry points. -/

/-- C5 (failing-input evaluation): a tick whose signal is one bullish event
with an existing "USDC"-side allocation reaches the entry branch, where the
source re-reads the USDC balance outside any try/except; when that read
raises, the exception propagates out of `run_update_generic` — the tick
does not return normally, contradicting the claim that no exception raised
by any internal step escapes a tick.  Every prior step of this run
succeeded: the fetch returned events and only the entry-branch balance
re-read raised. -/
theorem run_update_generic_uncaught_exception :
    uncaughtTickEnv.apiKey = some "key" ∧
    uncaughtTickEnv.entryUsdcQ = .error () ∧
    runUpdateGeneric uncaughtTickEnv uncaughtTickDb "0xW" "SentiChain BTC Agent on Base"
      "BTC" WBTC_ADDRESS "WBTC" "t1" = .error () := by
  refine ⟨rfl, rfl, ?_⟩
  rfl

end Fundis
